import Mathlib

set_option maxHeartbeats 1000000
set_option maxRecDepth 100000

/-!
Verification development for the Google Maps Pro scraper.

The definitions below are shallow embeddings of the JavaScript source:
the SEARCH-branch listing-discovery loop and DETAIL-branch enrichment of
the request handler, the review scroll loop of the review extractor, the
photo URL extractor, the social-media link classifier of the contact
extractor, and the proxy configuration factory.  JavaScript peculiarities
are modelled explicitly: falsy defaults (the operator x or-else d maps 0
and the empty string to d), JS Map insertion semantics (key keeps its
first position, value is overwritten), and JS Set/filter based
deduplication.
-/

/-- JS or-else fallback: models `x || d` for numbers, where `0`,
`null` and `undefined` are falsy and select the default. -/
def jsOrNat : Option Nat → Nat → Nat
  | some n, d => if n = 0 then d else n
  | none, d => d

/-- Models `a || b` for nullable strings: `null` and `""` are falsy. -/
def jsOrStr : Option String → Option String → Option String
  | some s, b => if s = "" then b else some s
  | none, b => b

/-- Models JS truthiness of a nullable string. -/
def jsTruthyStr : Option String → Bool
  | some s => s ≠ ""
  | none => false

/-- Models `String.prototype.toUpperCase` on ASCII data. -/
def jsUpper (s : String) : String := ⟨s.data.map Char.toUpper⟩

/-- Models `String.prototype.toLowerCase` on ASCII data. -/
def jsLower (s : String) : String := ⟨s.data.map Char.toLower⟩

/-- Character-list core of `String.prototype.includes`. -/
def charsHave : List Char → List Char → Bool
  | [], pat => pat.isEmpty
  | c :: rest, pat => pat.isPrefixOf (c :: rest) || charsHave rest pat

/-- Models `s.includes(pat)`. -/
def strHas (s pat : String) : Bool := charsHave s.data pat.data

/-- Tail of a size-token match: after seeing `=w`, consume digits,
then `-h`, then digits, returning the remainder on success.  This is the
matcher for the regex fragment `\d+-h\d+` used by the photo extractor. -/
def sizeTokenTail (l : List Char) : Option (List Char) :=
  let d1 := l.takeWhile Char.isDigit
  let r1 := l.dropWhile Char.isDigit
  if d1.isEmpty then none
  else
    match r1 with
    | '-' :: 'h' :: r2 =>
      let d2 := r2.takeWhile Char.isDigit
      let r3 := r2.dropWhile Char.isDigit
      if d2.isEmpty then none else some r3
    | _ => none

/-- Models `src.replace(/=w\d+-h\d+/, '=w2048-h2048')`: replace the
leftmost occurrence of the size token, leaving everything else alone. -/
def replaceSizeToken : List Char → List Char
  | [] => []
  | '=' :: 'w' :: rest =>
    match sizeTokenTail rest with
    | some rem => "=w2048-h2048".data ++ rem
    | none => '=' :: replaceSizeToken ('w' :: rest)
  | c :: rest => c :: replaceSizeToken rest

/-- The high-resolution rewrite applied to each photo source URL. -/
def highRes (s : String) : String := ⟨replaceSizeToken s.data⟩

/-- Tests whether an `Except` is in the error state. -/
def isErr {ε α : Type} : Except ε α → Bool
  | .error _ => true
  | .ok _ => false

/-! ## Proxy configuration (src utils/proxy-config.js, part_005 lines 19-94) -/

/-- The `VALID_COUNTRY_CODES` set, modelled by the literal list the source
builds it from; membership in the JS Set equals membership in the list. -/
def validCountryCodes : List String := [
  "US", "GB", "DE", "FR", "CA", "AU", "JP", "IT", "ES", "NL",
  "BE", "CH", "AT", "SE", "NO", "DK", "FI", "PL", "CZ", "IE",
  "PT", "GR", "HU", "RO", "BG", "HR", "SK", "SI", "LT", "LV",
  "EE", "LU", "MT", "CY", "IS", "LI", "MC", "AD", "SM", "VA",
  "BR", "MX", "AR", "CL", "CO", "PE", "VE", "EC", "BO", "PY",
  "UY", "GY", "SR", "GF", "FK", "ZA", "EG", "NG", "KE", "GH",
  "TN", "DZ", "MA", "SN", "CI", "CM", "AO", "MZ", "ZW", "BW",
  "NA", "ZM", "MW", "UG", "TZ", "ET", "SD", "SO", "DJ", "ER",
  "SS", "CF", "TD", "NE", "ML", "BF", "MR", "GM", "GN", "GW",
  "SL", "LR", "TG", "BJ", "IN", "CN", "JP", "KR", "TH", "VN",
  "PH", "ID", "MY", "SG", "BD", "PK", "LK", "MM", "KH", "LA",
  "MN", "NP", "BT", "MV", "BN", "TL", "FJ", "PG", "SB", "VU",
  "NC", "PF", "WS", "TO", "TV", "KI", "NR", "PW", "FM", "MH",
  "AU", "NZ", "RU", "UA", "BY", "MD", "GE", "AM", "AZ", "KZ",
  "UZ", "TM", "TJ", "KG", "AF", "IR", "IQ", "SA", "AE", "OM",
  "YE", "JO", "LB", "SY", "IL", "PS", "TR", "CY", "GR", "AL",
  "MK", "RS", "ME", "BA", "XK", "HR", "SI", "HU", "SK", "CZ",
  "PL", "LT", "LV", "EE", "FI", "SE", "NO", "DK", "IS", "IE",
  "GB", "FR", "ES", "PT", "IT", "CH", "AT", "BE", "NL", "LU",
  "DE", "DK", "SE", "NO", "FI", "IS", "IE", "GB", "FR", "ES",
  "PT", "IT", "GR", "CY", "MT", "PL", "CZ", "SK", "HU", "RO",
  "BG", "HR", "SI", "LT", "LV", "EE", "LU", "BE", "NL", "AT",
  "CH", "LI", "MC", "AD", "SM", "VA", "US", "CA", "MX", "BR",
  "AR", "CL", "CO", "PE", "VE", "EC", "BO", "PY", "UY", "GY",
  "SR", "GF", "FK", "ZA", "EG", "NG", "KE", "GH", "TN", "DZ",
  "MA", "SN", "CI", "CM", "AO", "MZ", "ZW", "BW", "NA", "ZM",
  "MW", "UG", "TZ", "ET", "SD", "SO", "DJ", "ER", "SS", "CF",
  "TD", "NE", "ML", "BF", "MR", "GM", "GN", "GW", "SL", "LR",
  "TG", "BJ", "IN", "CN", "JP", "KR", "TH", "VN", "PH", "ID",
  "MY", "SG", "BD", "PK", "LK", "MM", "KH", "LA", "MN", "NP",
  "BT", "MV", "BN", "TL", "FJ", "PG", "SB", "VU", "NC", "PF",
  "WS", "TO", "TV", "KI", "NR", "PW", "FM", "MH", "AU", "NZ",
  "RU", "UA", "BY", "MD", "GE", "AM", "AZ", "KZ", "UZ", "TM",
  "TJ", "KG", "AF", "IR", "IQ", "SA", "AE", "OM", "YE", "JO",
  "LB", "SY", "IL", "PS", "TR"]

/-- Options object accepted by `createProxyConfiguration`; `none` models
an absent (undefined) property. -/
structure PCOptions where
  useApifyProxy : Option Bool
  apifyProxyGroups : Option (List String)
  apifyProxyCountry : Option String
deriving DecidableEq

/-- The object passed to the platform proxy issuer
(`Actor.createProxyConfiguration`). -/
structure ProxyCfg where
  groups : List String
  countryCode : Option String
deriving DecidableEq

/-- The guard `apifyProxyCountry && !VALID_COUNTRY_CODES.has(upper)`:
true when a truthy country code fails validation. -/
def badCountry (o : PCOptions) : Bool :=
  match o.apifyProxyCountry with
  | some c => c ≠ "" && !(decide (jsUpper c ∈ validCountryCodes))
  | none => false

/-- The object forwarded to the issuer: configured groups (default
`["RESIDENTIAL"]`) and, when the country option is truthy, its
upper-cased form spread in as `countryCode`. -/
def issuedCfg (o : PCOptions) : ProxyCfg :=
  { groups := o.apifyProxyGroups.getD ["RESIDENTIAL"],
    countryCode :=
      if jsTruthyStr o.apifyProxyCountry then
        some (jsUpper (o.apifyProxyCountry.getD ""))
      else none }

/-- Shallow embedding of `createProxyConfiguration` (part_005 lines
67-94).  The first component is the returned value (`none` models the JS
`undefined` return) or the thrown error message; the second component
records every call made to the proxy issuer, in order. -/
def createProxyConfiguration (o : PCOptions) :
    Except String (Option ProxyCfg) × List ProxyCfg :=
  if badCountry o then
    (.error ("Invalid country code: " ++ (o.apifyProxyCountry.getD "") ++
      ". Must be a valid ISO 3166-1 alpha-2 code."), [])
  else if o.useApifyProxy.getD true = false then
    (.ok none, [])
  else
    (.ok (some (issuedCfg o)), [issuedCfg o])

/-- Claim C8: proxy construction with `apifyProxyCountry = "ZZ"` raises
the invalid-country error with zero issuer calls, `apifyProxyCountry =
"us"` succeeds and is forwarded to the issuer as `"US"`, and in general
an error outcome is only ever produced with zero issuer calls (the
country check precedes any issuance). -/
theorem c8_theorem :
    createProxyConfiguration ⟨none, none, some "ZZ"⟩ =
      (.error "Invalid country code: ZZ. Must be a valid ISO 3166-1 alpha-2 code.", []) ∧
    createProxyConfiguration ⟨none, none, some "us"⟩ =
      (.ok (some ⟨["RESIDENTIAL"], some "US"⟩), [⟨["RESIDENTIAL"], some "US"⟩]) ∧
    ∀ o : PCOptions, isErr (createProxyConfiguration o).1 = false ∨
      (createProxyConfiguration o).2 = [] := by
  refine ⟨by rfl, by rfl, ?_⟩
  intro o
  unfold createProxyConfiguration
  split
  · exact Or.inr rfl
  · split
    · exact Or.inl rfl
    · exact Or.inl rfl

/-- Claim C10 counterexample: with `apifyProxyCountry = ""` (a string
that is not a recognized code) and `useApifyProxy = false`, construction
does not throw: the empty string is falsy in JS, so validation is
skipped and `undefined` is returned. -/
theorem c10_counterexample :
    createProxyConfiguration ⟨some false, none, some ""⟩ = (.ok none, []) ∧
    jsUpper "" ∉ validCountryCodes := ⟨rfl, by decide⟩

/-- Claim C10 amended: for every options object whose `apifyProxyCountry`
is a NON-EMPTY string that is not a recognized code, construction throws
even when `useApifyProxy` is false (and with zero issuer calls); with
`useApifyProxy` false and an absent, empty, or valid country code it
returns no proxy configuration (`undefined`) without calling the
issuer. -/
theorem c10_theorem (u : Option Bool) (g : Option (List String)) (c c2 : String)
    (hc : c ≠ "") (hv : jsUpper c ∉ validCountryCodes)
    (hv2 : jsUpper c2 ∈ validCountryCodes) :
    isErr (createProxyConfiguration ⟨u, g, some c⟩).1 = true ∧
    (createProxyConfiguration ⟨u, g, some c⟩).2 = [] ∧
    createProxyConfiguration ⟨some false, g, none⟩ = (.ok none, []) ∧
    createProxyConfiguration ⟨some false, g, some c2⟩ = (.ok none, []) := by
  have hb : badCountry ⟨u, g, some c⟩ = true := by
    simp [badCountry, hc, hv]
  have hb2 : badCountry ⟨some false, g, some c2⟩ = false := by
    simp [badCountry, hv2]
  refine ⟨?_, ?_, ?_, ?_⟩
  · simp [createProxyConfiguration, hb, isErr]
  · simp [createProxyConfiguration, hb]
  · simp [createProxyConfiguration, badCountry]
  · simp [createProxyConfiguration, hb2]

/-- Witness for C10 at `c = "QQ"`, `c2 = "us"`. -/
theorem c10_witness :
    ("QQ" ≠ "" ∧ jsUpper "QQ" ∉ validCountryCodes ∧
      jsUpper "us" ∈ validCountryCodes) ∧
    (isErr (createProxyConfiguration ⟨none, none, some "QQ"⟩).1 = true ∧
      (createProxyConfiguration ⟨none, none, some "QQ"⟩).2 = [] ∧
      createProxyConfiguration ⟨some false, none, none⟩ = (.ok none, []) ∧
      createProxyConfiguration ⟨some false, none, some "us"⟩ = (.ok none, [])) :=
  ⟨⟨by decide, by decide, by decide⟩,
    c10_theorem none none "QQ" "us" (by decide) (by decide) (by decide)⟩

/-! ## Listing discovery: SEARCH branch of the request handler
(part_003 lines 117-170; the older src/main.js variant at lines 100-123
merges with a no-op object Set and has no scroll-attempt bound). -/

/-- A listing reference extracted from a results-feed anchor. -/
structure Listing where
  title : String
  url : String
deriving DecidableEq

/-- One round of the merge: `existingUrls` is the set of accumulated
URLs, `uniqueNewPlaces` keeps the extracted places whose URL is not yet
accumulated, and the survivors are appended (part_003 lines 143-146). -/
def mergeRound (places newPlaces : List Listing) : List Listing :=
  places ++ newPlaces.filter (fun p => !(decide (p.url ∈ places.map (fun q => q.url))))

/-- The scroll loop, with the remaining scroll attempts as structural
fuel: starting from `scrollAttempts = 0` with fuel `20`, fuel `> 0` is
exactly the loop guard `scrollAttempts < maxScrollAttempts`.  `rounds n`
is the list of anchors the page yields on attempt `n`.  Returns the
accumulated places and the final `scrollAttempts` counter. -/
def searchLoopAux (rounds : Nat → List Listing) (cap : Nat) :
    Nat → List Listing → Nat → List Listing × Nat
  | 0, places, att => (places, att)
  | fuel + 1, places, att =>
    if places.length < cap then
      searchLoopAux rounds cap fuel (mergeRound places (rounds att)) (att + 1)
    else (places, att)

/-- The discovery run: `places = []`, `scrollAttempts = 0`,
`maxScrollAttempts = 20`, cap `input?.maxPlaces || 100`. -/
def searchRun (rounds : Nat → List Listing) (maxPlaces : Option Nat) :
    List Listing × Nat :=
  searchLoopAux rounds (jsOrNat maxPlaces 100) 20 [] 0

/-- The DETAIL items enqueued on the SEARCH item's completion:
`places.slice(0, input?.maxPlaces || 100)` (part_003 lines 162-170). -/
def enqueuedDetails (rounds : Nat → List Listing) (maxPlaces : Option Nat) :
    List Listing :=
  (searchRun rounds maxPlaces).1.take (jsOrNat maxPlaces 100)

/-- Page behaviour whose first extraction round yields two anchors with
the same href but different titles; later rounds yield nothing. -/
def roundsDupUrl : Nat → List Listing := fun n =>
  if n = 0 then
    [⟨"Cafe A", "https://www.google.com/maps/place/u"⟩,
     ⟨"Cafe B", "https://www.google.com/maps/place/u"⟩]
  else []

/-- Page behaviour that yields the same single anchor on every round. -/
def roundsSingle : Nat → List Listing := fun _ =>
  [⟨"Cafe A", "https://www.google.com/maps/place/a"⟩]

/-- Claim C1 counterexample: when one extraction round itself contains
two anchors with the same URL, both survive the merge (the
`existingUrls` set is computed before the round is appended), so the
accumulated set from which DETAIL items are enqueued contains two
entries sharing a URL. -/
theorem c1_counterexample :
    (searchRun roundsDupUrl (some 2)).1 =
      [⟨"Cafe A", "https://www.google.com/maps/place/u"⟩,
       ⟨"Cafe B", "https://www.google.com/maps/place/u"⟩] ∧
    enqueuedDetails roundsDupUrl (some 2) =
      [⟨"Cafe A", "https://www.google.com/maps/place/u"⟩,
       ⟨"Cafe B", "https://www.google.com/maps/place/u"⟩] ∧
    decide (((searchRun roundsDupUrl (some 2)).1.map (fun p => p.url)).Nodup) = false := by
  decide

/-- The merge step preserves URL distinctness when the incoming round is
itself URL-distinct: survivors of the filter have fresh URLs. -/
theorem mergeRound_nodup (places r : List Listing)
    (hp : (places.map (fun q => q.url)).Nodup)
    (hr : (r.map (fun q => q.url)).Nodup) :
    ((mergeRound places r).map (fun q => q.url)).Nodup := by
  unfold mergeRound
  rw [List.map_append]
  refine List.Nodup.append hp ?_ ?_
  · exact List.Nodup.sublist (List.Sublist.map _ (List.filter_sublist _)) hr
  · intro a ha hb
    rcases List.mem_map.mp hb with ⟨p, hpmem, rfl⟩
    rcases List.mem_filter.mp hpmem with ⟨_, hcond⟩
    simp only [Bool.not_eq_true'] at hcond
    exact absurd ha (of_decide_eq_false hcond)

/-- URL distinctness is an invariant of the whole scroll loop, as long
as each consulted round is internally URL-distinct. -/
theorem searchLoopAux_nodup (rounds : Nat → List Listing) (cap : Nat)
    (hr : ∀ n ∈ List.range 20, ((rounds n).map (fun q => q.url)).Nodup) :
    ∀ fuel places att, att + fuel ≤ 20 →
      (places.map (fun q => q.url)).Nodup →
      (((searchLoopAux rounds cap fuel places att).1).map (fun q => q.url)).Nodup := by
  intro fuel
  induction fuel with
  | zero =>
    intro places att _ hp
    simpa [searchLoopAux] using hp
  | succ n ih =>
    intro places att hle hp
    simp only [searchLoopAux]
    split
    · exact ih _ (att + 1) (by omega)
        (mergeRound_nodup _ _ hp (hr att (by simp [List.mem_range]; omega)))
    · simpa using hp

/-- Claim C1 amended: a URL that is already accumulated is never added
again by a later round, so as long as no single extraction round
contains two anchors with the same URL, the accumulated listing set, and
the list of DETAIL items enqueued from it, never contain two entries
sharing a URL.  (Duplicates arriving inside one round are NOT collapsed;
see the counterexample.) -/
theorem c1_theorem (rounds : Nat → List Listing) (mp : Option Nat)
    (hr : decide (∀ n ∈ List.range 20,
      ((rounds n).map (fun q => q.url)).Nodup) = true) :
    (((searchRun rounds mp).1).map (fun q => q.url)).Nodup ∧
    ((enqueuedDetails rounds mp).map (fun q => q.url)).Nodup := by
  have hr' := of_decide_eq_true hr
  have h := searchLoopAux_nodup rounds (jsOrNat mp 100) hr' 20 [] 0 (by omega) (by simp)
  constructor
  · simpa [searchRun] using h
  · have heq : enqueuedDetails rounds mp =
        (searchLoopAux rounds (jsOrNat mp 100) 20 [] 0).1.take (jsOrNat mp 100) := rfl
    rw [heq, List.map_take]
    exact List.Nodup.sublist (List.take_sublist _ _) h

/-- Witness for C1 on the constant one-anchor page behaviour. -/
theorem c1_witness :
    (decide (∀ n ∈ List.range 20,
      ((roundsSingle n).map (fun q => q.url)).Nodup) = true) ∧
    ((((searchRun roundsSingle (some 3)).1).map (fun q => q.url)).Nodup ∧
      ((enqueuedDetails roundsSingle (some 3)).map (fun q => q.url)).Nodup) :=
  ⟨by decide, c1_theorem roundsSingle (some 3) (by decide)⟩

/-- Claim C2 counterexample: with `maxPlaces = 0` and one discoverable
listing, one DETAIL item is enqueued, exceeding the configured cap 0:
`input?.maxPlaces || 100` treats the configured 0 as falsy and uses the
default 100. -/
theorem c2_counterexample :
    (enqueuedDetails roundsSingle (some 0)).length = 1 ∧
    0 < (enqueuedDetails roundsSingle (some 0)).length := by
  decide

/-- Claim C2 amended: for every POSITIVE configured `maxPlaces = k`, the
number of DETAIL items enqueued on a SEARCH item's completion is at most
`k`, regardless of the page behaviour (`maxPlaces = 0` instead selects
the default cap 100). -/
theorem c2_theorem (rounds : Nat → List Listing) (k : Nat) (hk : 1 ≤ k) :
    (enqueuedDetails rounds (some k)).length ≤ k := by
  have hk0 : k ≠ 0 := by omega
  have hcap : jsOrNat (some k) 100 = k := by simp [jsOrNat, hk0]
  unfold enqueuedDetails
  rw [hcap]
  simp [List.length_take]

/-- Witness for C2 at `k = 1`. -/
theorem c2_witness :
    1 ≤ 1 ∧ (enqueuedDetails roundsSingle (some 1)).length ≤ 1 :=
  ⟨by decide, c2_theorem roundsSingle 1 (by decide)⟩

/-- The scroll loop leaves the attempt counter at most 20, and when it
stops short of 20 attempts the accumulated size has reached the cap. -/
theorem searchLoopAux_exit (rounds : Nat → List Listing) (cap : Nat) :
    ∀ fuel places att, att + fuel = 20 →
      (searchLoopAux rounds cap fuel places att).2 ≤ 20 ∧
      (cap ≤ (searchLoopAux rounds cap fuel places att).1.length ∨
        (searchLoopAux rounds cap fuel places att).2 = 20) := by
  intro fuel
  induction fuel with
  | zero =>
    intro places att hatt
    simp only [searchLoopAux]
    omega
  | succ n ih =>
    intro places att hatt
    simp only [searchLoopAux]
    split
    · exact ih _ (att + 1) (by omega)
    · rename_i hge
      refine ⟨?_, Or.inl ?_⟩
      · show att ≤ 20
        omega
      · show cap ≤ places.length
        omega

/-- Claim C5: the listing-discovery scroll loop always terminates, for
every page behaviour: it executes at most the fixed constant 20 scroll
attempts, and it stops before exhausting them only when the accumulated
size has reached `maxPlaces`. -/
theorem c5_theorem (rounds : Nat → List Listing) (k : Nat) (hk : 1 ≤ k) :
    (searchRun rounds (some k)).2 ≤ 20 ∧
    (k ≤ (searchRun rounds (some k)).1.length ∨
      (searchRun rounds (some k)).2 = 20) := by
  have hk0 : k ≠ 0 := by omega
  have hcap : jsOrNat (some k) 100 = k := by simp [jsOrNat, hk0]
  have h := searchLoopAux_exit rounds (jsOrNat (some k) 100) 20 [] 0 (by omega)
  rw [hcap] at h
  unfold searchRun
  rw [hcap]
  exact h

/-- Witness for C5 at `k = 2` on the constant one-anchor page: the loop
exhausts its 20 attempts. -/
theorem c5_witness :
    1 ≤ 2 ∧
    ((searchRun roundsSingle (some 2)).2 ≤ 20 ∧
      (2 ≤ (searchRun roundsSingle (some 2)).1.length ∨
        (searchRun roundsSingle (some 2)).2 = 20)) :=
  ⟨by decide, c5_theorem roundsSingle 2 (by decide)⟩

/-! ## Review extraction (part_005 lines 254-393, scrollAndExtractReviews) -/

/-- An owner response attached to a review. -/
structure OwnerResponse where
  owner : Option String
  text : Option String
  date : Option String
deriving DecidableEq

/-- A review as produced by `extractReviewData`. -/
structure Review where
  author : Option String
  rating : Option Nat
  text : Option String
  date : Option String
  response : Option OwnerResponse
deriving DecidableEq

/-- The dedup key: `(author || '') + '-' + (text?.substring(0, 50) || '')`. -/
def reviewKey (r : Review) : String :=
  (r.author.getD "") ++ "-" ++ ((r.text.map (fun t => t.take 50)).getD "")

/-- How the review convergence loop of the model stopped. -/
inductive ExitReason
  | whileExit
  | bottomBreak
  | outOfRounds
deriving DecidableEq

/-- Final state of the convergence loop: the accumulator before
truncation, the idle counter, and the way the loop stopped. -/
structure ReviewRun where
  raw : List Review
  idle : Nat
  reason : ExitReason
deriving DecidableEq

/-- The convergence loop of `scrollAndExtractReviews` (part_005 lines
339-390).  Each element of `rounds` is one scroll round: the reviews the
page renders at that point, and what the scrollability probe at the
bottom of the iteration reports.  The while guard is
`allReviews.length < maxReviews && noNewReviewsCount < 3`; the idle
counter increments when a round's rendered count equals the previous
round's and resets otherwise; the bottom `break` fires when the panel
cannot scroll and the idle counter has reached 3.  `outOfRounds` marks
runs where the modelled page behaviour was exhausted while the loop
still wanted to continue. -/
def reviewLoopAux (maxReviews : Nat) :
    List (List Review × Bool) → List Review → Nat → Nat → ReviewRun
  | rounds, acc, prev, idle =>
    if maxReviews ≤ acc.length ∨ 3 ≤ idle then ⟨acc, idle, .whileExit⟩
    else
      match rounds with
      | [] => ⟨acc, idle, .outOfRounds⟩
      | (cur, canScroll) :: rest =>
        let newAcc :=
          acc ++ cur.filter (fun r => !(decide (reviewKey r ∈ acc.map reviewKey)))
        let idle2 := if cur.length = prev then idle + 1 else 0
        if canScroll = false ∧ 3 ≤ idle2 then ⟨newAcc, idle2, .bottomBreak⟩
        else reviewLoopAux maxReviews rest newAcc cur.length idle2

/-- Model of `scrollAndExtractReviews`: run the loop from the empty accumulator
and return `allReviews.slice(0, maxReviews)` with the exit mode. -/
def scrollAndExtractReviews (rounds : List (List Review × Bool))
    (maxReviews : Nat) : List Review × ExitReason :=
  let run := reviewLoopAux maxReviews rounds [] 0 0
  (run.raw.take maxReviews, run.reason)

/-- A single fixed review rendered on every round. -/
def reviewAlways : Review :=
  ⟨some "Alice", some 5, some "Great place", some "1 week ago", none⟩

/-- Six rounds that always render the same one review and always report
further scrollable distance. -/
def roundsScrollable : List (List Review × Bool) :=
  List.replicate 6 ([reviewAlways], true)

/-- Claim C4 counterexample: on a page that keeps rendering the same
single review and always reports further scrollable distance, the loop
stops (via the while guard) with 1 accumulated review, short of
`maxReviews = 5`, even though the panel never reported an end of
scrollable distance — the idle threshold alone ends collection. -/
theorem c4_counterexample :
    (reviewLoopAux 5 roundsScrollable [] 0 0).reason = .whileExit ∧
    (reviewLoopAux 5 roundsScrollable [] 0 0).idle = 3 ∧
    (reviewLoopAux 5 roundsScrollable [] 0 0).raw.length = 1 ∧
    scrollAndExtractReviews roundsScrollable 5 = ([reviewAlways], .whileExit) ∧
    roundsScrollable.all (fun r => r.2) = true := by
  decide

/-- Whenever the loop stops for a reason other than exhausting the
modelled page behaviour, the accumulated count has reached `maxReviews`
or the idle counter has reached 3 — independent of scrollability. -/
theorem reviewLoopAux_exit (maxReviews : Nat) :
    ∀ rounds acc prev idle,
      (reviewLoopAux maxReviews rounds acc prev idle).reason = .outOfRounds ∨
      maxReviews ≤ (reviewLoopAux maxReviews rounds acc prev idle).raw.length ∨
      3 ≤ (reviewLoopAux maxReviews rounds acc prev idle).idle := by
  intro rounds
  induction rounds with
  | nil =>
    intro acc prev idle
    rw [reviewLoopAux]
    split
    · rename_i hc
      right
      simpa using hc
    · left
      rfl
  | cons head rest ih =>
    intro acc prev idle
    obtain ⟨cur, canScroll⟩ := head
    rw [reviewLoopAux]
    split
    · rename_i hc
      right
      simpa using hc
    · split
      · dsimp only
        split
        · rename_i hb
          right
          right
          exact hb.2
        · exact ih _ _ _
      · dsimp only
        split
        · rename_i hb
          right
          right
          exact hb.2
        · exact ih _ _ _

/-- Claim C4 amended: the review convergence loop terminates when the
accumulated review count reaches `maxReviews` or when the idle counter
(incremented whenever a round's rendered count equals the previous
round's) reaches the threshold 3 — the no-further-scrollable-distance
condition is NOT required: an idle count of 3 ends collection even while
the panel still reports scrollable distance, and then
`accumulated < maxReviews` is possible. -/
theorem c4_theorem (rounds : List (List Review × Bool)) (maxReviews : Nat) :
    (reviewLoopAux maxReviews rounds [] 0 0).reason = .outOfRounds ∨
    maxReviews ≤ (reviewLoopAux maxReviews rounds [] 0 0).raw.length ∨
    3 ≤ (reviewLoopAux maxReviews rounds [] 0 0).idle :=
  reviewLoopAux_exit maxReviews rounds [] 0 0

/-! ## Photo URL extraction (part_004 lines 21-41, extractPhotoUrls) -/

/-- An `img` element: `src`, `data-src` and `alt` attributes, each
possibly absent. -/
structure ImgEl where
  src : Option String
  dataSrc : Option String
  alt : Option String
deriving DecidableEq

/-- A photo descriptor: canonical high-resolution URL, original source
as thumbnail, and alt text. -/
structure Photo where
  url : String
  thumbnail : String
  alt : String
deriving DecidableEq

/-- Whether an attribute value matches the `googleusercontent`
substring selector. -/
def attrHasHost : Option String → Bool
  | some s => strHas s "googleusercontent"
  | none => false

/-- One `Map.set` step of `new Map(photos.map(p => [p.url, p]))`: a key
already present keeps its position but its value is overwritten; a new
key is appended. -/
def jsMapInsert (m : List (String × Photo)) (k : String) (v : Photo) :
    List (String × Photo) :=
  if m.any (fun e => e.1 == k) then
    m.map (fun e => if e.1 == k then (k, v) else e)
  else m ++ [(k, v)]

/-- Models `[...new Map(photos.map(p => [p.url, p])).values()]`. -/
def jsMapValues (ps : List Photo) : List Photo :=
  (ps.foldl (fun m p => jsMapInsert m p.url p) []).map (fun e => e.2)

/-- The per-element body of `extractPhotoUrls` (part_004 lines 26-37):
take `src || data-src`, keep it when truthy and matching the host
marker, and rewrite the size token to `=w2048-h2048`. -/
def photoDescriptor (img : ImgEl) : Option Photo :=
  match jsOrStr img.src img.dataSrc with
  | some src =>
    if src ≠ "" && strHas src "googleusercontent" then
      some ⟨highRes src, src, img.alt.getD ""⟩
    else none
  | none => none

/-- The photo descriptors pushed in document order: `img` elements whose
`src` or `data-src` matches the host selector, mapped through
`photoDescriptor`. -/
def photoList (imgs : List ImgEl) : List Photo :=
  (imgs.filter (fun img => attrHasHost img.src || attrHasHost img.dataSrc)).filterMap
    photoDescriptor

/-- Shallow embedding of `extractPhotoUrls` (part_004 lines 21-41):
extract the descriptors and deduplicate through a JS Map keyed by the
rewritten canonical URL. -/
def extractPhotoUrls (imgs : List ImgEl) : List Photo :=
  jsMapValues (photoList imgs)

/-- Insertion preserves distinctness of keys and the binding of each
value to its key, provided the inserted value carries its key. -/
theorem jsMapInsert_inv (m : List (String × Photo)) (k : String) (v : Photo)
    (h1 : (m.map (fun e => e.1)).Nodup) (h2 : ∀ e ∈ m, e.2.url = e.1)
    (hk : v.url = k) :
    ((jsMapInsert m k v).map (fun e => e.1)).Nodup ∧
    ∀ e ∈ jsMapInsert m k v, e.2.url = e.1 := by
  unfold jsMapInsert
  split
  · constructor
    · have hkeys : (m.map (fun e => if e.1 == k then ((k, v) : String × Photo) else e)).map
          (fun e => e.1) = m.map (fun e => e.1) := by
        rw [List.map_map]
        refine List.map_congr_left ?_
        intro e _
        by_cases he : (e.1 == k) = true
        · simp only [Function.comp, he, if_pos]
          exact (eq_of_beq he).symm
        · simp only [Function.comp, he, if_neg]
          rfl
      rw [hkeys]
      exact h1
    · intro e he
      rcases List.mem_map.mp he with ⟨e0, he0, rfl⟩
      by_cases hc : (e0.1 == k) = true
      · simp only [hc, if_pos]
        exact hk
      · simp only [hc, if_neg]
        exact h2 e0 he0
  · rename_i hany
    constructor
    · rw [List.map_append]
      refine List.Nodup.append h1 (by simp) ?_
      intro a ha hb
      simp only [List.map_cons, List.map_nil, List.mem_singleton] at hb
      subst hb
      rcases List.mem_map.mp ha with ⟨e0, he0, he0k⟩
      exact hany (List.any_eq_true.mpr ⟨e0, he0, by simp [he0k]⟩)
    · intro e he
      rcases List.mem_append.mp he with h | h
      · exact h2 e h
      · simp only [List.mem_singleton] at h
        subst h
        exact hk

/-- The Map-building fold keeps keys distinct and values bound to their
keys. -/
theorem jsMapFold_inv (ps : List Photo) :
    ∀ m, (m.map (fun e => e.1)).Nodup → (∀ e ∈ m, e.2.url = e.1) →
      (((ps.foldl (fun m p => jsMapInsert m p.url p) m).map (fun e => e.1)).Nodup ∧
        ∀ e ∈ ps.foldl (fun m p => jsMapInsert m p.url p) m, e.2.url = e.1) := by
  induction ps with
  | nil =>
    intro m h1 h2
    exact ⟨h1, h2⟩
  | cons p rest ih =>
    intro m h1 h2
    have hstep := jsMapInsert_inv m p.url p h1 h2 rfl
    exact ih _ hstep.1 hstep.2

/-- The URL list of the Map-deduplicated photo list has no
duplicates. -/
theorem jsMapValues_nodup (ps : List Photo) :
    ((jsMapValues ps).map (fun p => p.url)).Nodup := by
  unfold jsMapValues
  rw [List.map_map]
  obtain ⟨h1, h2⟩ := jsMapFold_inv ps [] (by simp) (by simp)
  have h3 : ∀ e ∈ ps.foldl (fun m p => jsMapInsert m p.url p) [],
      ((fun q => q.url) ∘ fun e => e.2) e = (fun e => e.1) e :=
    fun e he => h2 e he
  rw [List.map_congr_left h3]
  exact h1

/-- Keys after one insertion: unchanged when the key was already
present, appended at the end otherwise. -/
theorem jsMapInsert_keys (m : List (String × Photo)) (k : String) (v : Photo) :
    (jsMapInsert m k v).map (fun e => e.1) =
      if m.any (fun e => e.1 == k) then m.map (fun e => e.1)
      else m.map (fun e => e.1) ++ [k] := by
  unfold jsMapInsert
  split
  · rw [List.map_map]
    refine List.map_congr_left ?_
    intro e _
    by_cases he : (e.1 == k) = true
    · simp only [Function.comp, he, if_pos]
      exact (eq_of_beq he).symm
    · simp only [Function.comp, he, if_neg]
      rfl
  · rw [List.map_append]
    rfl

/-- Membership among the keys after one insertion. -/
theorem jsMapInsert_keys_mem (m : List (String × Photo)) (k : String)
    (v : Photo) (a : String) :
    a ∈ (jsMapInsert m k v).map (fun e => e.1) ↔
      a ∈ m.map (fun e => e.1) ∨ a = k := by
  rw [jsMapInsert_keys]
  split
  · rename_i hany
    constructor
    · exact Or.inl
    · rintro (h | rfl)
      · exact h
      · rcases List.any_eq_true.mp hany with ⟨e, he, hek⟩
        exact List.mem_map.mpr ⟨e, he, eq_of_beq hek⟩
  · simp

/-- The keys of the Map-building fold are the starting keys together
with the URLs of the processed descriptors. -/
theorem jsMapFold_keys (ps : List Photo) :
    ∀ m a, (a ∈ (ps.foldl (fun m p => jsMapInsert m p.url p) m).map (fun e => e.1) ↔
      a ∈ m.map (fun e => e.1) ∨ a ∈ ps.map (fun p => p.url)) := by
  induction ps with
  | nil =>
    intro m a
    simp
  | cons p rest ih =>
    intro m a
    rw [List.foldl_cons, ih (jsMapInsert m p.url p) a, jsMapInsert_keys_mem]
    simp only [List.map_cons, List.mem_cons]
    tauto

/-- Values after inserting an already-present key: the entry whose URL
collides is overwritten in place, all other entries and all positions
are unchanged. -/
theorem jsMapInsert_values_any (m : List (String × Photo)) (k : String)
    (v : Photo) (hany : m.any (fun e => e.1 == k) = true)
    (h2 : ∀ e ∈ m, e.2.url = e.1) :
    (jsMapInsert m k v).map (fun e => e.2) =
      (m.map (fun e => e.2)).map (fun q => if q.url == k then v else q) := by
  unfold jsMapInsert
  rw [if_pos hany, List.map_map, List.map_map]
  refine List.map_congr_left ?_
  intro e he
  have hurl : e.2.url = e.1 := h2 e he
  by_cases hek : (e.1 == k) = true
  · have hq : (e.2.url == k) = true := by rw [hurl]; exact hek
    simp [Function.comp, hek, hq]
  · have hek2 : (e.1 == k) = false := by simpa using hek
    have hq : (e.2.url == k) = false := by rw [hurl]; exact hek2
    simp [Function.comp, hek2, hq]

/-- Values after inserting a fresh key: appended at the end. -/
theorem jsMapInsert_values_new (m : List (String × Photo)) (k : String)
    (v : Photo) (hany : m.any (fun e => e.1 == k) = false) :
    (jsMapInsert m k v).map (fun e => e.2) = m.map (fun e => e.2) ++ [v] := by
  unfold jsMapInsert
  rw [if_neg (by simp [hany]), List.map_append]
  rfl

/-- Appending one descriptor to the input of the Map deduplication: a
colliding canonical URL overwrites the existing entry in place (the
later thumbnail and alt win, at the first occurrence's position); a
fresh canonical URL is appended at the end. -/
theorem jsMapValues_append_one (ps : List Photo) (p : Photo) :
    jsMapValues (ps ++ [p]) =
      if p.url ∈ ps.map (fun q => q.url) then
        (jsMapValues ps).map (fun q => if q.url == p.url then p else q)
      else jsMapValues ps ++ [p] := by
  have h2 := (jsMapFold_inv ps [] (by simp) (by simp)).2
  unfold jsMapValues
  rw [List.foldl_append, List.foldl_cons, List.foldl_nil]
  by_cases hmem : p.url ∈ ps.map (fun q => q.url)
  · rw [if_pos hmem]
    have hkey : p.url ∈
        ((ps.foldl (fun m p => jsMapInsert m p.url p) []).map (fun e => e.1)) :=
      (jsMapFold_keys ps [] p.url).mpr (Or.inr hmem)
    have hany : ((ps.foldl (fun m p => jsMapInsert m p.url p) []).any
        (fun e => e.1 == p.url)) = true := by
      rcases List.mem_map.mp hkey with ⟨e, he, hek⟩
      exact List.any_eq_true.mpr ⟨e, he, by simp [hek]⟩
    exact jsMapInsert_values_any _ p.url p hany h2
  · rw [if_neg hmem]
    have hany : ((ps.foldl (fun m p => jsMapInsert m p.url p) []).any
        (fun e => e.1 == p.url)) = false := by
      cases hx : ((ps.foldl (fun m p => jsMapInsert m p.url p) []).any
          (fun e => e.1 == p.url)) with
      | false => rfl
      | true =>
        exfalso
        rcases List.any_eq_true.mp hx with ⟨e, he, hek⟩
        have hk : p.url ∈
            ((ps.foldl (fun m p => jsMapInsert m p.url p) []).map (fun e => e.1)) :=
          List.mem_map.mpr ⟨e, he, eq_of_beq hek⟩
        have hor := (jsMapFold_keys ps [] p.url).mp hk
        simp only [List.map_nil, List.not_mem_nil, false_or] at hor
        exact hmem hor
    exact jsMapInsert_values_new _ p.url p hany

/-- The descriptor extraction distributes over appended element
lists. -/
theorem photoList_append (xs ys : List ImgEl) :
    photoList (xs ++ ys) = photoList xs ++ photoList ys := by
  unfold photoList
  rw [List.filter_append, List.filterMap_append]

/-- First image of the colliding pair: size token `=w100-h100`. -/
def imgFirst : ImgEl :=
  ⟨some "https://lh3.googleusercontent.com/p/abc=w100-h100-k-no", none,
    some "first photo"⟩

/-- Second image of the colliding pair: size token `=w200-h200`, same
canonical URL after the rewrite. -/
def imgSecond : ImgEl :=
  ⟨some "https://lh3.googleusercontent.com/p/abc=w200-h200-k-no", none,
    some "second photo"⟩

/-- Claim C6 counterexample: two photo descriptors differing only in
their size token collapse to one entry, but the retained thumbnail and
alt text are the LAST-seen ones, not the first-seen: `new Map` overwrites
the value of an existing key. -/
theorem c6_counterexample :
    extractPhotoUrls [imgFirst, imgSecond] =
      [⟨"https://lh3.googleusercontent.com/p/abc=w2048-h2048-k-no",
        "https://lh3.googleusercontent.com/p/abc=w200-h200-k-no",
        "second photo"⟩] ∧
    decide ((extractPhotoUrls [imgFirst, imgSecond]).map (fun p => p.thumbnail) =
      ["https://lh3.googleusercontent.com/p/abc=w100-h100-k-no"]) = false ∧
    decide ((extractPhotoUrls [imgFirst, imgSecond]).map (fun p => p.alt) =
      ["first photo"]) = false := by
  refine ⟨by decide, by decide, by decide⟩

/-- Claim C6 amended: for every list of extracted photo elements the
result never contains two entries with the same canonical URL, and for
every collision — any further element whose descriptor resolves to an
already-extracted canonical URL — the colliding entry is overwritten in
place: the LAST-seen thumbnail and alt text are retained, at the first
occurrence's position, with every other entry and the output length
unchanged. -/
theorem c6_theorem (js imgs : List ImgEl) (img : ImgEl) (d : Photo)
    (hd : photoList [img] = [d])
    (hc : d.url ∈ (extractPhotoUrls imgs).map (fun q => q.url)) :
    ((extractPhotoUrls js).map (fun q => q.url)).Nodup ∧
    extractPhotoUrls (imgs ++ [img]) =
      (extractPhotoUrls imgs).map (fun q => if q.url == d.url then d else q) := by
  constructor
  · show ((jsMapValues (photoList js)).map (fun q => q.url)).Nodup
    exact jsMapValues_nodup _
  · have h2 := (jsMapFold_inv (photoList imgs) [] (by simp) (by simp)).2
    have hurls : (extractPhotoUrls imgs).map (fun q => q.url) =
        ((photoList imgs).foldl (fun m p => jsMapInsert m p.url p) []).map
          (fun e => e.1) := by
      show ((jsMapValues (photoList imgs)).map (fun q => q.url)) = _
      unfold jsMapValues
      rw [List.map_map]
      exact List.map_congr_left (fun e he => h2 e he)
    have hmem : d.url ∈ (photoList imgs).map (fun q => q.url) := by
      rw [hurls] at hc
      have hor := (jsMapFold_keys (photoList imgs) [] d.url).mp hc
      simpa using hor
    show jsMapValues (photoList (imgs ++ [img])) =
      (extractPhotoUrls imgs).map (fun q => if q.url == d.url then d else q)
    rw [photoList_append, hd, jsMapValues_append_one, if_pos hmem]
    rfl

/-- Witness for C6: appending the `=w200-h200` image to a page holding
the `=w100-h100` image overwrites the stored entry in place with the
second descriptor. -/
theorem c6_witness :
    (photoList [imgSecond] =
      [⟨"https://lh3.googleusercontent.com/p/abc=w2048-h2048-k-no",
        "https://lh3.googleusercontent.com/p/abc=w200-h200-k-no",
        "second photo"⟩] ∧
     "https://lh3.googleusercontent.com/p/abc=w2048-h2048-k-no" ∈
       (extractPhotoUrls [imgFirst]).map (fun q => q.url)) ∧
    (((extractPhotoUrls [imgFirst, imgSecond]).map (fun q => q.url)).Nodup ∧
     extractPhotoUrls ([imgFirst] ++ [imgSecond]) =
       (extractPhotoUrls [imgFirst]).map (fun q =>
         if q.url == "https://lh3.googleusercontent.com/p/abc=w2048-h2048-k-no" then
           ⟨"https://lh3.googleusercontent.com/p/abc=w2048-h2048-k-no",
            "https://lh3.googleusercontent.com/p/abc=w200-h200-k-no",
            "second photo"⟩
         else q)) :=
  ⟨⟨by decide, by decide⟩,
    c6_theorem [imgFirst, imgSecond] [imgFirst] imgSecond
      ⟨"https://lh3.googleusercontent.com/p/abc=w2048-h2048-k-no",
       "https://lh3.googleusercontent.com/p/abc=w200-h200-k-no",
       "second photo"⟩ (by decide) (by decide)⟩

/-! ## Social media link classification
(src utils/contact-extractor.js lines 33-72, extractSocialMediaLinks) -/

/-- An out-bound `a[href]` element: href attribute and text content. -/
structure LinkEl where
  href : String
  text : String
deriving DecidableEq

/-- The fixed set of platform buckets. -/
inductive SMPlatform
  | facebook
  | twitter
  | instagram
  | linkedin
  | youtube
  | tiktok
  | pinterest
deriving DecidableEq

/-- The `socialLinks` accumulator object; `none` is a still-null slot. -/
structure SocialLinks where
  facebook : Option String
  twitter : Option String
  instagram : Option String
  linkedin : Option String
  youtube : Option String
  tiktok : Option String
  pinterest : Option String
deriving DecidableEq

/-- All slots null, as initialized by the source. -/
def emptySocial : SocialLinks := ⟨none, none, none, none, none, none, none⟩

/-- One `forEach` body: the if/else-if chain over the lower-cased href
and link text; a matching platform slot is ASSIGNED the original href
(overwriting any previous value). -/
def classStep (acc : SocialLinks) (l : LinkEl) : SocialLinks :=
  if strHas (jsLower l.href) "facebook.com" || strHas (jsLower l.text) "facebook" then
    { acc with facebook := some l.href }
  else if strHas (jsLower l.href) "twitter.com" || strHas (jsLower l.href) "x.com" ||
      strHas (jsLower l.text) "twitter" then
    { acc with twitter := some l.href }
  else if strHas (jsLower l.href) "instagram.com" || strHas (jsLower l.text) "instagram" then
    { acc with instagram := some l.href }
  else if strHas (jsLower l.href) "linkedin.com" || strHas (jsLower l.text) "linkedin" then
    { acc with linkedin := some l.href }
  else if strHas (jsLower l.href) "youtube.com" || strHas (jsLower l.text) "youtube" then
    { acc with youtube := some l.href }
  else if strHas (jsLower l.href) "tiktok.com" || strHas (jsLower l.text) "tiktok" then
    { acc with tiktok := some l.href }
  else if strHas (jsLower l.href) "pinterest.com" || strHas (jsLower l.text) "pinterest" then
    { acc with pinterest := some l.href }
  else acc

/-- Shallow embedding of `extractSocialMediaLinks`: fold the chain over
the page's links in document order.  (The final `Object.fromEntries`
null-filtering is presentational: a `none` slot is an absent entry.) -/
def extractSocialMediaLinks (links : List LinkEl) : SocialLinks :=
  links.foldl classStep emptySocial

/-- The platform a link is classified to, mirroring `classStep`'s
condition chain; `none` when no condition matches. -/
def classifyLink (l : LinkEl) : Option SMPlatform :=
  if strHas (jsLower l.href) "facebook.com" || strHas (jsLower l.text) "facebook" then
    some .facebook
  else if strHas (jsLower l.href) "twitter.com" || strHas (jsLower l.href) "x.com" ||
      strHas (jsLower l.text) "twitter" then
    some .twitter
  else if strHas (jsLower l.href) "instagram.com" || strHas (jsLower l.text) "instagram" then
    some .instagram
  else if strHas (jsLower l.href) "linkedin.com" || strHas (jsLower l.text) "linkedin" then
    some .linkedin
  else if strHas (jsLower l.href) "youtube.com" || strHas (jsLower l.text) "youtube" then
    some .youtube
  else if strHas (jsLower l.href) "tiktok.com" || strHas (jsLower l.text) "tiktok" then
    some .tiktok
  else if strHas (jsLower l.href) "pinterest.com" || strHas (jsLower l.text) "pinterest" then
    some .pinterest
  else none

/-- The slot of a platform bucket. -/
def getBucket (s : SocialLinks) : SMPlatform → Option String
  | .facebook => s.facebook
  | .twitter => s.twitter
  | .instagram => s.instagram
  | .linkedin => s.linkedin
  | .youtube => s.youtube
  | .tiktok => s.tiktok
  | .pinterest => s.pinterest

/-- A step on a link classified to platform `p` stores that link's href
in `p`'s bucket, whatever the bucket held before. -/
theorem classStep_classified (acc : SocialLinks) (l : LinkEl) (p : SMPlatform)
    (h : classifyLink l = some p) :
    getBucket (classStep acc l) p = some l.href := by
  unfold classifyLink at h
  unfold classStep
  repeat' split at h
  all_goals try (injection h with h2)
  all_goals try exact Option.noConfusion h
  all_goals try subst h2
  all_goals simp [getBucket, *]

/-- First of two facebook links on one page. -/
def fbFirst : LinkEl := ⟨"https://facebook.com/first", ""⟩

/-- Second of two facebook links on one page. -/
def fbSecond : LinkEl := ⟨"https://facebook.com/second", ""⟩

/-- Claim C7 counterexample: with two links qualifying for the facebook
bucket, the retained URL is the SECOND one — a later match overwrites an
already-filled platform slot instead of being ignored. -/
theorem c7_counterexample :
    (extractSocialMediaLinks [fbFirst, fbSecond]).facebook =
      some "https://facebook.com/second" ∧
    decide ((extractSocialMediaLinks [fbFirst, fbSecond]).facebook =
      some "https://facebook.com/first") = false := by
  refine ⟨by decide, by decide⟩

/-- Claim C7 amended: at most one URL is retained per platform bucket
(each bucket is a single slot), and the LAST matching link for a
platform wins: whenever the final link of the scan classifies to
platform `p`, the bucket for `p` holds that link's href, regardless of
earlier matches. -/
theorem c7_theorem (ls : List LinkEl) (l : LinkEl) (p : SMPlatform)
    (h : classifyLink l = some p) :
    getBucket (extractSocialMediaLinks (ls ++ [l])) p = some l.href := by
  unfold extractSocialMediaLinks
  rw [List.foldl_append]
  exact classStep_classified _ l p h

/-- Witness for C7: a single facebook link lands in the facebook
bucket. -/
theorem c7_witness :
    classifyLink ⟨"https://facebook.com/mybiz", "Follow us"⟩ = some .facebook ∧
    getBucket (extractSocialMediaLinks
      ([] ++ [⟨"https://facebook.com/mybiz", "Follow us"⟩])) .facebook =
      some "https://facebook.com/mybiz" :=
  ⟨by decide, c7_theorem [] ⟨"https://facebook.com/mybiz", "Follow us"⟩ .facebook (by decide)⟩

/-! ## DETAIL and SEARCH item handling (part_003 lines 98-335) -/

/-- GPS coordinates parsed from the URL pattern; the two regex capture
groups are kept as strings (the source stores `parseFloat` of them). -/
structure Gps where
  lat : String
  lng : String
deriving DecidableEq

/-- The base data produced by the DETAIL page evaluation. -/
structure BasicData where
  title : Option String
  address : Option String
  phone : Option String
  website : Option String
  rating : Option String
  reviewCount : Option String
  gps : Option Gps
deriving DecidableEq

/-- A photo persisted by `downloadPhotos`. -/
structure StoredPhoto where
  key : String
  url : String
  thumbnail : String
  alt : String
deriving DecidableEq

/-- The object returned by `extractContactInfo`. -/
structure ContactInfo where
  emails : List String
  socialMedia : SocialLinks
  phoneNumbers : List String
deriving DecidableEq

/-- The `contactInfo` property of the pushed record: never assigned
(absent from the JSON), assigned the JS `null`, or assigned a value. -/
inductive ContactField
  | unset
  | nullv
  | val (c : ContactInfo)
deriving DecidableEq

/-- The record pushed to the dataset sink for one DETAIL item. -/
structure PlaceData where
  title : Option String
  address : Option String
  phone : Option String
  website : Option String
  rating : Option String
  reviewCount : Option String
  gps : Option Gps
  url : String
  scrapedAt : String
  reviews : Option (List Review)
  photos : Option (List StoredPhoto)
  contactInfo : ContactField
deriving DecidableEq

/-- The enrichment phase of the DETAIL branch (part_003 lines 283-331):
spread the basic data with `url` and `scrapedAt`; then, per enabled
pipeline, assign its field from the pipeline result, with the catch
blocks assigning `reviews = []`, `photos = []` and `contactInfo = null`
respectively.  The contact pipeline only runs when the extracted website
is truthy. -/
def buildPlaceData (basic : BasicData) (url scrapedAt : String)
    (includeReviews : Bool) (reviewsResult : Except String (List Review))
    (downloadPhotos : Bool) (photosResult : Except String (List StoredPhoto))
    (extractContact : Bool) (contactResult : Except String ContactInfo) :
    PlaceData :=
  let pd0 : PlaceData :=
    { title := basic.title, address := basic.address, phone := basic.phone,
      website := basic.website, rating := basic.rating,
      reviewCount := basic.reviewCount, gps := basic.gps,
      url := url, scrapedAt := scrapedAt,
      reviews := none, photos := none, contactInfo := .unset }
  let pd1 :=
    if includeReviews then
      { pd0 with reviews := some (match reviewsResult with
          | .ok rs => rs
          | .error _ => []) }
    else pd0
  let pd2 :=
    if downloadPhotos then
      { pd1 with photos := some (match photosResult with
          | .ok ps => ps
          | .error _ => []) }
    else pd1
  if extractContact && jsTruthyStr basic.website then
    { pd2 with contactInfo := match contactResult with
        | .ok c => .val c
        | .error _ => .nullv }
  else pd2

/-- The DETAIL branch of the request handler (part_003 lines 171-333):
the CAPTCHA gate calls the solver when a key is configured, but has no
else-throw when the key is absent; the handler then always pushes the
built record. -/
def detailHandler (captchaDetected hasApiKey : Bool)
    (solveResult : Except String Unit) (basic : BasicData)
    (url scrapedAt : String) (includeReviews : Bool)
    (reviewsResult : Except String (List Review)) (downloadPhotos : Bool)
    (photosResult : Except String (List StoredPhoto)) (extractContact : Bool)
    (contactResult : Except String ContactInfo) : Except String PlaceData :=
  let gate : Except String Unit :=
    if captchaDetected then
      if hasApiKey then solveResult else .ok ()
    else .ok ()
  gate.bind (fun _ => .ok (buildPlaceData basic url scrapedAt includeReviews
    reviewsResult downloadPhotos photosResult extractContact contactResult))

/-- The SEARCH branch of the request handler (part_003 lines 100-170):
here a detected CAPTCHA with no configured key throws, aborting the
item before any discovery or enqueueing. -/
def searchHandler (captchaDetected hasApiKey : Bool)
    (solveResult : Except String Unit) (rounds : Nat → List Listing)
    (maxPlaces : Option Nat) : Except String (List Listing) :=
  let gate : Except String Unit :=
    if captchaDetected then
      if hasApiKey then solveResult
      else .error "CAPTCHA detected but no API key provided"
    else .ok ()
  gate.bind (fun _ => .ok (enqueuedDetails rounds maxPlaces))

/-- A fully populated base record used as a concrete DETAIL input. -/
def basicSample : BasicData :=
  ⟨some "Blue Bottle Coffee", some "123 Main St", some "555-123-4567",
    some "https://bluebottle.example", some "4.5", some "1,200 reviews",
    some ⟨"37.77", "-122.41"⟩⟩

/-- Claim C3 counterexample: when the contact-info pipeline throws, its
field on the pushed record is the explicit JS `null` — not the
pipeline's empty default (neither the absent/unset state it has when the
pipeline does not run, nor an empty `ContactInfo` container). -/
theorem c3_counterexample :
    (buildPlaceData basicSample "https://www.google.com/maps/place/bb"
      "2024-01-01T00:00:00.000Z" true (.error "reviews failed")
      true (.error "photos failed") true (.error "contact failed")).contactInfo =
      ContactField.nullv ∧
    decide (ContactField.nullv = ContactField.unset) = false ∧
    decide (ContactField.nullv = ContactField.val ⟨[], emptySocial, []⟩) = false := by
  refine ⟨by rfl, by decide, by decide⟩

/-- Claim C3 amended: for every DETAIL item, whatever the enrichment
outcomes, the handler still returns (pushes) the record; a throwing
review pipeline yields `reviews = []`, a throwing photo pipeline yields
`photos = []`, and all base fields are kept — but a throwing
contact-info pipeline sets `contactInfo` to the JS `null` (when the
website is truthy; otherwise the pipeline does not run and the field
stays absent). -/
theorem c3_theorem (basic : BasicData) (url scrapedAt : String)
    (er ep ec : String) :
    detailHandler false false (.ok ()) basic url scrapedAt
      true (.error er) true (.error ep) true (.error ec) =
      .ok (buildPlaceData basic url scrapedAt true (.error er)
        true (.error ep) true (.error ec)) ∧
    (buildPlaceData basic url scrapedAt true (.error er)
      true (.error ep) true (.error ec)).reviews = some [] ∧
    (buildPlaceData basic url scrapedAt true (.error er)
      true (.error ep) true (.error ec)).photos = some [] ∧
    (buildPlaceData basic url scrapedAt true (.error er)
      true (.error ep) true (.error ec)).contactInfo =
      (if jsTruthyStr basic.website then ContactField.nullv
        else ContactField.unset) ∧
    (buildPlaceData basic url scrapedAt true (.error er)
      true (.error ep) true (.error ec)).title = basic.title ∧
    (buildPlaceData basic url scrapedAt true (.error er)
      true (.error ep) true (.error ec)).address = basic.address ∧
    (buildPlaceData basic url scrapedAt true (.error er)
      true (.error ep) true (.error ec)).phone = basic.phone ∧
    (buildPlaceData basic url scrapedAt true (.error er)
      true (.error ep) true (.error ec)).website = basic.website ∧
    (buildPlaceData basic url scrapedAt true (.error er)
      true (.error ep) true (.error ec)).rating = basic.rating ∧
    (buildPlaceData basic url scrapedAt true (.error er)
      true (.error ep) true (.error ec)).reviewCount = basic.reviewCount ∧
    (buildPlaceData basic url scrapedAt true (.error er)
      true (.error ep) true (.error ec)).gps = basic.gps ∧
    (buildPlaceData basic url scrapedAt true (.error er)
      true (.error ep) true (.error ec)).url = url ∧
    (buildPlaceData basic url scrapedAt true (.error er)
      true (.error ep) true (.error ec)).scrapedAt = scrapedAt := by
  unfold detailHandler buildPlaceData
  by_cases hw : jsTruthyStr basic.website = true
  · simp [hw, Except.bind]
  · simp [hw, Except.bind]

/-- Claim C9 counterexample: a DETAIL item with a detected CAPTCHA and
no configured solver raises no error at all — the handler proceeds and
pushes the record, instead of failing the item. -/
theorem c9_counterexample :
    detailHandler true false (.ok ()) basicSample
      "https://www.google.com/maps/place/bb" "2024-01-01T00:00:00.000Z"
      false (.ok []) false (.ok []) false (.ok ⟨[], emptySocial, []⟩) =
      .ok (buildPlaceData basicSample "https://www.google.com/maps/place/bb"
        "2024-01-01T00:00:00.000Z" false (.ok []) false (.ok [])
        false (.ok ⟨[], emptySocial, []⟩)) ∧
    isErr (detailHandler true false (.ok ()) basicSample
      "https://www.google.com/maps/place/bb" "2024-01-01T00:00:00.000Z"
      false (.ok []) false (.ok []) false (.ok ⟨[], emptySocial, []⟩)) = false := by
  exact ⟨rfl, rfl⟩

/-- Claim C9 amended: when a CAPTCHA is detected and no solver API key
is configured, a SEARCH item fails with the fatal-to-the-item error, but
a DETAIL item raises nothing: its handler continues and pushes the
record. -/
theorem c9_theorem (rounds : Nat → List Listing) (mp : Option Nat)
    (basic : BasicData) (url scrapedAt : String) (ir : Bool)
    (rr : Except String (List Review)) (dp : Bool)
    (pr : Except String (List StoredPhoto)) (ec : Bool)
    (cr : Except String ContactInfo) :
    searchHandler true false (.ok ()) rounds mp =
      .error "CAPTCHA detected but no API key provided" ∧
    detailHandler true false (.ok ()) basic url scrapedAt ir rr dp pr ec cr =
      .ok (buildPlaceData basic url scrapedAt ir rr dp pr ec cr) :=
  ⟨rfl, rfl⟩
